import Mathlib

/-!
Verification of the card-tokenization service: a shallow embedding of the
JWT codec (`app/core/security.py`), the card schemas (`app/schemas/card.py`),
the card lifecycle service (`app/services/card_service.py`), the user
authorization dependency (`app/services/auth_service.py`) and the card
routes (`app/routes/card.py`), together with theorems settling the frozen
claims about them.

Modelling conventions: timestamps are `Nat` seconds; `uuid.uuid4()` draws
are modelled as distinct `Nat` identifiers supplied by the caller; a JWT
string is modelled as the pair of its claim map and the key it was signed
with (JWT encoding is injective on the payload), and arbitrary non-JWT
strings are the `malformed` tokens.
-/

set_option maxHeartbeats 1000000

/-- A JSON claim value as it appears in a token payload: a string, an
integer (also used for unix timestamps), or an opaque uuid string
(modelled as a distinct natural). -/
inductive JVal where
  | str : String → JVal
  | num : Int → JVal
  | uuid : Nat → JVal
deriving DecidableEq

/-- A claim map: a Python `dict\x7bstr: value\x7d` with unique keys in
insertion order. -/
abbrev Claims := List (String × JVal)

/-- `m.get(k)`: the value of the first entry whose key is `k`. -/
def getClaim (m : Claims) (k : String) : Option JVal :=
  (List.find? (fun p => p.1 == k) m).map (fun p => p.2)

/-- `m[k] = v` on a dict: replace the (first) entry with key `k` in place,
or append a new entry when the key is absent. -/
def setClaim : Claims → String → JVal → Claims
  | [], k, v => [(k, v)]
  | p :: rest, k, v =>
      if p.1 == k then (k, v) :: rest else p :: setClaim rest k v

/-- Configuration `JWT_SECRET_KEY` (`app/core/config.py`): the single
process-wide signing secret, loaded from the environment; its concrete
value is irrelevant to the design, only its identity. -/
def JWT_SECRET_KEY : String := "jwt-secret-key"

/-- Configuration `TOKEN_EXPIRE_SECONDS` (`app/core/config.py`), default
1800. -/
def TOKEN_EXPIRE_SECONDS : Nat := 1800

/-- A well-formed JWT string, identified with the claim map it encodes and
the key it was signed with. -/
structure Jwt where
  claims : Claims
  key : String
deriving DecidableEq

/-- A bearer token string as presented by a caller: either a well-formed
JWT or any other (malformed) string. -/
inductive Token where
  | signed : Jwt → Token
  | malformed : String → Token
deriving DecidableEq

/-- `create_token` (`app/core/security.py` lines 51-71): copies the input
claims and updates `exp` (now + TTL), `iat` (now) and `jti` (a fresh
uuid4), then signs with `JWT_SECRET_KEY`. `now` is the current unix time
and `jti` the uuid draw. -/
def create_token (data : Claims) (now : Nat) (jti : Nat) : Jwt :=
  let to_encode :=
    setClaim (setClaim (setClaim data "exp" (JVal.num (now + TOKEN_EXPIRE_SECONDS)))
      "iat" (JVal.num now)) "jti" (JVal.uuid jti)
  { claims := to_encode, key := JWT_SECRET_KEY }

/-- `decode_token` (`app/core/security.py` lines 73-92): `jwt.decode` with
the configured key; a malformed string, a wrong signature, or an `exp`
claim in the past each raise `JWTError`, re-raised as
`ValueError("invalid or expired token: ...")`. A missing `exp` claim is
not an error. -/
def decode_token (t : Token) (now : Nat) : Except String Claims :=
  match t with
  | Token.malformed s => Except.error ("invalid or expired token: " ++ s)
  | Token.signed j =>
      if j.key ≠ JWT_SECRET_KEY then
        Except.error "invalid or expired token: Signature verification failed."
      else
        match getClaim j.claims "exp" with
        | some (JVal.num e) =>
            if e < (now : Int) then
              Except.error "invalid or expired token: Signature has expired."
            else Except.ok j.claims
        | some _ => Except.error "invalid or expired token: Expiration Time claim (exp) must be an int."
        | none => Except.ok j.claims

/-- `validate_card_number` (`app/schemas/card.py` lines 64-88) on the digit
list of the card-number string: pop the check digit, reverse the rest,
double the digits at odd indices of the reversed list, subtract 9 from
results above 9, and accept when the sum plus the check digit is divisible
by 10. -/
def validate_card_number (ds : List Nat) : Bool :=
  match ds.reverse with
  | [] => false
  | checksum :: rest =>
      let doubled := rest.enum.map (fun p => if p.1 % 2 = 1 then p.2 * 2 else p.2)
      let adjusted := doubled.map (fun d => if d > 9 then d - 9 else d)
      (adjusted.sum + checksum) % 10 = 0

/-- Modelled from the spec: the standard Luhn mod-10 checksum, doubling
every second digit from the right (the digit next to the check digit, and
every other one further left), subtracting 9 from doubles above 9, and
requiring the total including the check digit to be divisible by 10.
Stated for refinement comparison with `validate_card_number`. -/
def luhn_spec (ds : List Nat) : Bool :=
  match ds.reverse with
  | [] => false
  | checksum :: rest =>
      let doubled := rest.enum.map (fun p => if p.1 % 2 = 0 then p.2 * 2 else p.2)
      let adjusted := doubled.map (fun d => if d > 9 then d - 9 else d)
      (adjusted.sum + checksum) % 10 = 0

/-- The digit list of `"4111111111111111"`. -/
def visaTestDigits : List Nat := [4, 1, 1, 1, 1, 1, 1, 1, 1, 1, 1, 1, 1, 1, 1, 1]

/-- The digit list of `"4111111111111112"`. -/
def visaTestDigitsBad : List Nat := [4, 1, 1, 1, 1, 1, 1, 1, 1, 1, 1, 1, 1, 1, 1, 2]

/-- `CardToken` model row (`app/models/card.py` lines 24-34): ids are uuid
strings, `jwt_token` the stored signed token string, timestamps in unix
seconds. -/
structure CardToken where
  id : String
  user_id : String
  jwt_token : Token
  masked_card_number : String
  cardholder_name : String
  scope : String
  expires_at : Nat
  is_revoked : Bool
  created_at : Nat
deriving DecidableEq

/-- The persisted card-token ledger: the `card_tokens` table as the list of
its rows (in insertion order). -/
abbrev Ledger := List CardToken

/-- The effect of committing an in-place mutation of a fetched row: every
row with the same primary key (unique in practice) is replaced by the
mutated object. -/
def updateById (db : Ledger) (id : String) (c : CardToken) : Ledger :=
  List.map (fun x => if x.id == id then c else x) db

/-- `mask_card_number` (`app/services/card_service.py` line 16):
`"*" * (len - 4)` followed by the last four characters. -/
def mask_card_number (card_number : String) : String :=
  String.mk (List.replicate (card_number.length - 4) '*') ++
    String.drop card_number (card_number.length - 4)

/-- `CardTokenCreate` (`app/schemas/card.py`): the validated issue request
body. -/
structure CardTokenCreate where
  card_number : String
  cardholder_name : String
  expiry_month : Int
  expiry_year : Int
  cvv : String
  scope : String
deriving DecidableEq

/-- `save_card_to_db` (`app/services/card_service.py` lines 21-57): mints a
token over the cardholder name, expiry and scope, masks the card number,
and appends a new row with `expires_at = now + TOKEN_EXPIRE_SECONDS`,
`is_revoked` false (column default) and `created_at = now`. `newId` is the
fresh uuid4 primary key, `jti` the uuid draw inside `create_token`. -/
def save_card_to_db (db : Ledger) (card_data : CardTokenCreate) (user_id : String)
    (now : Nat) (newId : String) (jti : Nat) : CardToken × Ledger :=
  let payload : Claims :=
    [("cardholder_name", JVal.str card_data.cardholder_name),
     ("expiry_month", JVal.num card_data.expiry_month),
     ("expiry_year", JVal.num card_data.expiry_year),
     ("scope", JVal.str card_data.scope)]
  let jwt_str := Token.signed (create_token payload now jti)
  let db_card : CardToken :=
    { id := newId
      user_id := user_id
      jwt_token := jwt_str
      masked_card_number := mask_card_number card_data.card_number
      cardholder_name := card_data.cardholder_name
      scope := card_data.scope
      expires_at := now + TOKEN_EXPIRE_SECONDS
      is_revoked := false
      created_at := now }
  (db_card, db ++ [db_card])

/-- `get_all_cards` (`app/services/card_service.py` lines 59-76): all rows
of the user with `expires_at > now` and `is_revoked` false. -/
def get_all_cards (db : Ledger) (user_id : String) (now : Nat) : Ledger :=
  List.filter
    (fun c => c.user_id == user_id && decide (now < c.expires_at) && !c.is_revoked) db

/-- `get_card_by_id` (`app/services/card_service.py` lines 78-103): first
row matching id and user, then `None` when `expires_at < now`; the
`is_revoked` flag is not consulted. -/
def get_card_by_id (db : Ledger) (card_id : String) (user_id : String)
    (now : Nat) : Option CardToken :=
  match List.find? (fun c => c.id == card_id && c.user_id == user_id) db with
  | none => none
  | some card => if card.expires_at < now then none else some card

/-- `revoke_card_by_id` (`app/services/card_service.py` lines 105-130):
`ValueError` on token mismatch or already-revoked, else commits
`is_revoked := true` on the row. -/
def revoke_card_by_id (db : Ledger) (card : CardToken) (jwt_token : Token) :
    Except String (CardToken × Ledger) :=
  if card.jwt_token ≠ jwt_token then Except.error "token mismatch"
  else if card.is_revoked then Except.error "card is already revoked"
  else
    let card' : CardToken := { card with is_revoked := true }
    Except.ok (card', updateById db card.id card')

/-- `delete_card_by_id` (`app/services/card_service.py` lines 132-149):
`ValueError` on token mismatch, else removes the row. -/
def delete_card_by_id (db : Ledger) (card : CardToken) (jwt_token : Token) :
    Except String Ledger :=
  if card.jwt_token ≠ jwt_token then Except.error "token mismatch"
  else Except.ok (List.filter (fun c => !(c.id == card.id)) db)

/-- `refresh_card_by_id` (`app/services/card_service.py` lines 151-182):
`ValueError` on token mismatch, already-revoked or ledger expiry; then
decodes the stored token (a `ValueError` from `decode_token` propagates),
re-signs the decoded payload with `create_token` and commits the new token
string and `expires_at = now + TOKEN_EXPIRE_SECONDS` on the row. -/
def refresh_card_by_id (db : Ledger) (card : CardToken) (jwt_token : Token)
    (now : Nat) (jti : Nat) : Except String (CardToken × Ledger) :=
  if card.jwt_token ≠ jwt_token then Except.error "token mismatch"
  else if card.is_revoked then Except.error "card is already revoked"
  else if card.expires_at < now then Except.error "card has expired"
  else
    match decode_token card.jwt_token now with
    | Except.error e => Except.error e
    | Except.ok payload =>
        let card' : CardToken :=
          { card with
            jwt_token := Token.signed (create_token payload now jti)
            expires_at := now + TOKEN_EXPIRE_SECONDS }
        Except.ok (card', updateById db card.id card')

/-- An error surfaced by a dependency or route: an `HTTPException` with a
status code and detail, or an uncaught `ValueError` (which FastAPI turns
into a generic 500 response). -/
inductive ApiError where
  | http : Nat → String → ApiError
  | valueErr : String → ApiError
deriving DecidableEq

/-- `verify_card` (`app/services/card_service.py` lines 184-216): decodes
the presented token (a `ValueError` is caught and re-raised as a 401 with
the error text), looks the exact token string up in the ledger, and fails
with 401 when no row matches or the row is revoked; returns the payload
and the owning user id. -/
def verify_card (tok : Token) (db : Ledger) (now : Nat) :
    Except ApiError (Claims × String) :=
  match decode_token tok now with
  | Except.error e => Except.error (ApiError.http 401 e)
  | Except.ok payload =>
      match List.find? (fun c => c.jwt_token == tok) db with
      | none => Except.error (ApiError.http 401 "card is revoked or invalid.")
      | some token_obj =>
          if token_obj.is_revoked then
            Except.error (ApiError.http 401 "card is revoked or invalid.")
          else Except.ok (payload, token_obj.user_id)

/-- `scope_checker` inside `require_scope` (`app/routes/card.py` lines
22-41): 403 when the payload's `scope` claim is not one of the allowed
scope strings. -/
def scope_checker (allowed_scopes : List String) (card_info : Claims × String) :
    Except ApiError (Claims × String) :=
  let ok := match getClaim card_info.1 "scope" with
            | some (JVal.str s) => allowed_scopes.contains s
            | _ => false
  if ok then Except.ok card_info
  else
    Except.error (ApiError.http 403
      ("insufficient permissions. Required scopes: " ++
        String.intercalate ", " allowed_scopes))

/-- Whether `pre` is a prefix of the second character list. -/
def startsWithL : List Char → List Char → Bool
  | [], _ => true
  | _ :: _, [] => false
  | c :: cs, d :: ds => c == d && startsWithL cs ds

/-- Whether the needle occurs as a contiguous sublist of the haystack. -/
def hasSubL (needle : List Char) : List Char → Bool
  | [] => needle.isEmpty
  | d :: ds => startsWithL needle (d :: ds) || hasSubL needle ds

/-- Python `"already" in e` on an error message: a substring check on the
character lists. -/
def containsAlready (e : String) : Bool :=
  hasSubL "already".data e.data

/-- `verify_user` (`app/services/auth_service.py` lines 73-88): decodes the
bearer token — a `ValueError` from `decode_token` is NOT caught and
propagates out of the dependency — then 400 when the `sub` claim is
missing or falsy, 404 when no user row has that id, else returns the
payload. `users` is the list of existing user ids. -/
def verify_user (tok : Token) (users : List String) (now : Nat) :
    Except ApiError Claims :=
  match decode_token tok now with
  | Except.error e => Except.error (ApiError.valueErr e)
  | Except.ok payload =>
      match getClaim payload "sub" with
      | none => Except.error (ApiError.http 400 "User ID missing in token")
      | some v =>
          let truthy := match v with
                        | JVal.str s => !(s == "")
                        | JVal.num n => !(n == 0)
                        | JVal.uuid _ => true
          if !truthy then Except.error (ApiError.http 400 "User ID missing in token")
          else if users.any (fun u => v == JVal.str u) then Except.ok payload
          else Except.error (ApiError.http 404 "User not found")

/-- Route `revoke_card` (`app/routes/card.py` lines 216-263):
`require_scope(["full-access"])` (card verification plus scope gate), then
`get_card_by_id` (404 when `None`), then `revoke_card_by_id`; a
`ValueError` whose message contains `"already"` becomes 400, any other
becomes 404. -/
def revoke_card (db : Ledger) (id : String) (tok : Token) (now : Nat) :
    Except ApiError (CardToken × Ledger) :=
  match verify_card tok db now with
  | Except.error e => Except.error e
  | Except.ok card_info =>
      match scope_checker ["full-access"] card_info with
      | Except.error e => Except.error e
      | Except.ok info =>
          match get_card_by_id db id info.2 now with
          | none => Except.error (ApiError.http 404 "card not found")
          | some card =>
              match revoke_card_by_id db card tok with
              | Except.ok r => Except.ok r
              | Except.error e =>
                  if containsAlready e then Except.error (ApiError.http 400 e)
                  else Except.error (ApiError.http 404 e)

/-- Route `delete_card` (`app/routes/card.py` lines 169-214):
`require_scope(["full-access"])`, then `get_card_by_id` (404 when `None`),
then `delete_card_by_id`; every `ValueError` becomes 404. -/
def delete_card (db : Ledger) (id : String) (tok : Token) (now : Nat) :
    Except ApiError (String × Ledger) :=
  match verify_card tok db now with
  | Except.error e => Except.error e
  | Except.ok card_info =>
      match scope_checker ["full-access"] card_info with
      | Except.error e => Except.error e
      | Except.ok info =>
          match get_card_by_id db id info.2 now with
          | none => Except.error (ApiError.http 404 "card not found")
          | some card =>
              match delete_card_by_id db card tok with
              | Except.ok db' => Except.ok ("card deleted successfully", db')
              | Except.error e => Except.error (ApiError.http 404 e)

/-- Route `refresh_card` (`app/routes/card.py` lines 265-310):
`require_scope(["refresh-only", "full-access"])`, then `get_card_by_id`
(404 when `None`), then `refresh_card_by_id`; every `ValueError` becomes
400. -/
def refresh_card (db : Ledger) (id : String) (tok : Token) (now : Nat)
    (jti : Nat) : Except ApiError (CardToken × Ledger) :=
  match verify_card tok db now with
  | Except.error e => Except.error e
  | Except.ok card_info =>
      match scope_checker ["refresh-only", "full-access"] card_info with
      | Except.error e => Except.error e
      | Except.ok info =>
          match get_card_by_id db id info.2 now with
          | none => Except.error (ApiError.http 404 "card not found")
          | some card =>
              match refresh_card_by_id db card tok now jti with
              | Except.ok r => Except.ok r
              | Except.error e => Except.error (ApiError.http 400 e)

/-- A ledger-mutating invocation at the route/issue level: the arguments of
one call to the issue, revoke, delete or refresh endpoint. -/
inductive RouteOp where
  | issue : CardTokenCreate → String → Nat → String → Nat → RouteOp
  | revoke : String → Token → Nat → RouteOp
  | delete : String → Token → Nat → RouteOp
  | refresh : String → Token → Nat → Nat → RouteOp

/-- The ledger after one route invocation: the committed state on success,
the unchanged ledger when the route fails. -/
def applyOp (db : Ledger) : RouteOp → Ledger
  | RouteOp.issue card_data user_id now newId jti =>
      (save_card_to_db db card_data user_id now newId jti).2
  | RouteOp.revoke id tok now =>
      match revoke_card db id tok now with
      | Except.ok r => r.2
      | Except.error _ => db
  | RouteOp.delete id tok now =>
      match delete_card db id tok now with
      | Except.ok r => r.2
      | Except.error _ => db
  | RouteOp.refresh id tok now jti =>
      match refresh_card db id tok now jti with
      | Except.ok r => r.2
      | Except.error _ => db

/-- Freshness of uuid4 primary keys: an issue invocation never reuses the
watched row id (uuid collisions are out of the model). -/
def savedIdNe : RouteOp → String → Prop
  | RouteOp.issue _ _ _ newId _, cid => newId ≠ cid
  | _, _ => True

/-- Whether a route/dependency outcome is an unauthorized (401) HTTP
error. -/
def isUnauthorizedErr {α : Type} : Except ApiError α → Bool
  | Except.error (ApiError.http 401 _) => true
  | _ => false

/-! ## Concrete fixtures used by counterexamples and witnesses -/

/-- A revoked, owned row whose `expires_at` equals the current instant,
used to refute C2 as stated. -/
def revokedRow : CardToken :=
  { id := "row-1"
    user_id := "alice"
    jwt_token := Token.malformed "stored"
    masked_card_number := "************1111"
    cardholder_name := "Alice"
    scope := "full-access"
    expires_at := 100
    is_revoked := true
    created_at := 0 }

/-- A full-access card-token payload as minted by `save_card_to_db`. -/
def payloadA : Claims :=
  [("cardholder_name", JVal.str "Ann"), ("expiry_month", JVal.num 12),
   ("expiry_year", JVal.num 2030), ("scope", JVal.str "full-access")]

/-- The signed token of `cardA`, minted at time 0 with uuid draw 1. -/
def tokA : Token := Token.signed (create_token payloadA 0 1)

/-- The signed token of `cardB`, minted at time 0 with uuid draw 2. -/
def tokB : Token := Token.signed (create_token payloadA 0 2)

/-- A first full-access card of user `u1`. -/
def cardA : CardToken :=
  { id := "card-a"
    user_id := "u1"
    jwt_token := tokA
    masked_card_number := "************1111"
    cardholder_name := "Ann"
    scope := "full-access"
    expires_at := 1800
    is_revoked := false
    created_at := 0 }

/-- A second full-access card of the same user `u1`. -/
def cardB : CardToken :=
  { cardA with id := "card-b", jwt_token := tokB }

/-- A two-row ledger holding both cards of user `u1`. -/
def dbAB : Ledger := [cardA, cardB]

/-- `cardA` after a successful refresh at time 10 with uuid draw 3. -/
def cardA10 : CardToken :=
  { cardA with
      jwt_token := Token.signed (create_token (create_token payloadA 0 1).claims 10 3)
      expires_at := 10 + TOKEN_EXPIRE_SECONDS }

/-- A read-only card-token payload. -/
def payloadR : Claims :=
  [("cardholder_name", JVal.str "Ann"), ("expiry_month", JVal.num 12),
   ("expiry_year", JVal.num 2030), ("scope", JVal.str "read-only")]

/-- The signed token of `cardR`, minted at time 0 with uuid draw 4. -/
def tokR : Token := Token.signed (create_token payloadR 0 4)

/-- A read-only card of user `u1`. -/
def cardR : CardToken :=
  { cardA with id := "card-r", jwt_token := tokR, scope := "read-only" }

/-- A one-row ledger holding only the read-only card. -/
def dbR : Ledger := [cardR]

/-! ## Helper lemmas about claim maps -/

theorem getClaim_nil (k : String) : getClaim [] k = none := rfl

theorem getClaim_cons (p : String × JVal) (rest : Claims) (k : String) :
    getClaim (p :: rest) k = if p.1 = k then some p.2 else getClaim rest k := by
  by_cases h : p.1 = k
  · rw [if_pos h]
    unfold getClaim
    rw [List.find?_cons_of_pos _ (by simpa using h)]
    rfl
  · rw [if_neg h]
    unfold getClaim
    rw [List.find?_cons_of_neg _ (by simpa using h)]

theorem setClaim_cons (p : String × JVal) (rest : Claims) (k : String) (v : JVal) :
    setClaim (p :: rest) k v =
      if p.1 = k then (k, v) :: rest else p :: setClaim rest k v := by
  by_cases h : p.1 = k <;> simp [setClaim, h]

theorem getClaim_setClaim_self (m : Claims) (k : String) (v : JVal) :
    getClaim (setClaim m k v) k = some v := by
  induction m with
  | nil => simp [setClaim, getClaim_cons]
  | cons p rest ih =>
      rw [setClaim_cons]
      by_cases h : p.1 = k
      · simp [h, getClaim_cons]
      · simp [h, getClaim_cons, ih]

theorem getClaim_setClaim_ne (m : Claims) (k k' : String) (v : JVal)
    (h : k' ≠ k) : getClaim (setClaim m k' v) k = getClaim m k := by
  induction m with
  | nil => simp [setClaim, getClaim_cons, getClaim_nil, h]
  | cons p rest ih =>
      rw [setClaim_cons]
      by_cases hp : p.1 = k'
      · simp [hp, getClaim_cons, h, Ne.symm h]
      · simp [hp, getClaim_cons, ih]

theorem setClaim_of_absent (m : Claims) (k : String) (v : JVal)
    (h : getClaim m k = none) : setClaim m k v = m ++ [(k, v)] := by
  induction m with
  | nil => simp [setClaim]
  | cons p rest ih =>
      rw [getClaim_cons] at h
      by_cases hp : p.1 = k
      · simp [hp] at h
      · rw [if_neg hp] at h
        simp [setClaim_cons, hp, ih h]

theorem getClaim_append_of_absent (m l : Claims) (k : String)
    (h : getClaim m k = none) : getClaim (m ++ l) k = getClaim l k := by
  induction m with
  | nil => simp
  | cons p rest ih =>
      rw [getClaim_cons] at h
      by_cases hp : p.1 = k
      · simp [hp] at h
      · rw [if_neg hp] at h
        rw [List.cons_append, getClaim_cons, if_neg hp]
        exact ih h

/-! ## C1: the Luhn validator -/

/-- C1: the claim says `issue` accepts a 13-19 digit string iff the
standard Luhn checksum holds, and in particular accepts
`4111111111111111`. In fact `validate_card_number` doubles the digits at
odd indices of the reversed payload (the 3rd, 5th, ... digits from the
right) instead of the even ones (the 2nd, 4th, ...), so it rejects the
Luhn-valid `4111111111111111` (its adjusted sum is 26, not divisible by
10), contradicting the code's own docstring, schema example and test
fixture. It also rejects the Luhn-invalid `4111111111111112`, as both the
claim and the code agree. -/
theorem C1_validate_card_number_rejects_valid_visa :
    validate_card_number visaTestDigits = false ∧
    luhn_spec visaTestDigits = true ∧
    validate_card_number visaTestDigitsBad = false ∧
    luhn_spec visaTestDigitsBad = false := by decide

/-! ## C5: reserved claims overwritten by sign -/

/-- C5 counterexample: `create_token` keeps a caller-supplied `sub` claim
verbatim, while the claim says every one of `sub`, `exp`, `iat`, `jti` is
overwritten. -/
theorem C5_counterexample_sub_kept :
    getClaim (create_token [("sub", JVal.str "attacker-chosen")] 0 7).claims "sub"
      = some (JVal.str "attacker-chosen") := by decide

/-- C5 amended: for every input claim map, `create_token` overwrites the
reserved keys `exp` (now plus the fixed TTL), `iat` (now) and `jti` (the
fresh token id) — but not `sub`, whose caller-supplied value (or absence)
is kept verbatim. -/
theorem C5_create_token_reserved_claims (data : Claims) (now jti : Nat) :
    getClaim (create_token data now jti).claims "exp"
        = some (JVal.num (now + TOKEN_EXPIRE_SECONDS)) ∧
    getClaim (create_token data now jti).claims "iat" = some (JVal.num now) ∧
    getClaim (create_token data now jti).claims "jti" = some (JVal.uuid jti) ∧
    getClaim (create_token data now jti).claims "sub" = getClaim data "sub" := by
  refine ⟨?_, ?_, ?_, ?_⟩
  · rw [show (create_token data now jti).claims =
      setClaim (setClaim (setClaim data "exp" (JVal.num (now + TOKEN_EXPIRE_SECONDS)))
        "iat" (JVal.num now)) "jti" (JVal.uuid jti) from rfl]
    rw [getClaim_setClaim_ne _ _ _ _ (by decide), getClaim_setClaim_ne _ _ _ _ (by decide),
      getClaim_setClaim_self]
  · rw [show (create_token data now jti).claims =
      setClaim (setClaim (setClaim data "exp" (JVal.num (now + TOKEN_EXPIRE_SECONDS)))
        "iat" (JVal.num now)) "jti" (JVal.uuid jti) from rfl]
    rw [getClaim_setClaim_ne _ _ _ _ (by decide), getClaim_setClaim_self]
  · rw [show (create_token data now jti).claims =
      setClaim (setClaim (setClaim data "exp" (JVal.num (now + TOKEN_EXPIRE_SECONDS)))
        "iat" (JVal.num now)) "jti" (JVal.uuid jti) from rfl]
    rw [getClaim_setClaim_self]
  · rw [show (create_token data now jti).claims =
      setClaim (setClaim (setClaim data "exp" (JVal.num (now + TOKEN_EXPIRE_SECONDS)))
        "iat" (JVal.num now)) "jti" (JVal.uuid jti) from rfl]
    rw [getClaim_setClaim_ne _ _ _ _ (by decide), getClaim_setClaim_ne _ _ _ _ (by decide),
      getClaim_setClaim_ne _ _ _ _ (by decide)]

/-! ## C4: bad user token on the issue endpoint -/

/-- C4 counterexample: a malformed bearer user token makes `verify_user`
propagate an uncaught `ValueError` (which the framework surfaces as a 500
internal error), not the 401 unauthorized error the claim states. -/
theorem C4_counterexample_no_401 :
    verify_user (Token.malformed "not-a-jwt") ["user-1"] 0
        = Except.error (ApiError.valueErr "invalid or expired token: not-a-jwt") ∧
    isUnauthorizedErr (verify_user (Token.malformed "not-a-jwt") ["user-1"] 0)
        = false := ⟨rfl, rfl⟩

/-- C4 amended: for every request to the card-issue endpoint presenting a
bearer user token that is malformed, wrongly signed, or expired, the
request fails — but the `ValueError` raised by `decode_token` (carrying
the failure detail, which is also logged) propagates uncaught out of the
`verify_user` dependency, so the failure is surfaced by the framework as a
500 internal error rather than a 401 unauthorized response. -/
theorem C4_verify_user_propagates_valueerror (tok : Token) (users : List String)
    (now : Nat) (msg : String) (h : decode_token tok now = Except.error msg) :
    verify_user tok users now = Except.error (ApiError.valueErr msg) := by
  simp [verify_user, h]

/-- C4 witness: the amended theorem applied to a concrete expired signed
token. -/
theorem C4_witness :
    decode_token (Token.signed (create_token [] 0 1)) 99999
        = Except.error "invalid or expired token: Signature has expired." ∧
    verify_user (Token.signed (create_token [] 0 1)) ["user-1"] 99999
        = Except.error
            (ApiError.valueErr "invalid or expired token: Signature has expired.") :=
  ⟨rfl, C4_verify_user_propagates_valueerror _ _ _ _ rfl⟩

/-! ## C2: get_card_by_id -/

/-- Reduction of `decode_token` on a well-formed JWT. -/
theorem decode_token_signed (j : Jwt) (now : Nat) :
    decode_token (Token.signed j) now =
      if j.key ≠ JWT_SECRET_KEY then
        Except.error "invalid or expired token: Signature verification failed."
      else
        match getClaim j.claims "exp" with
        | some (JVal.num e) =>
            if e < (now : Int) then
              Except.error "invalid or expired token: Signature has expired."
            else Except.ok j.claims
        | some _ => Except.error "invalid or expired token: Expiration Time claim (exp) must be an int."
        | none => Except.ok j.claims := rfl

/-- C2 counterexample: at time 100 the ledger holds a row owned by the
requesting user that is revoked and whose `expires_at` is not strictly
later than now, yet `get_card_by_id` returns the row instead of the
`NotFound` the claim requires. -/
theorem C2_counterexample_revoked_row_returned :
    get_card_by_id [revokedRow] "row-1" "alice" 100 = some revokedRow ∧
    revokedRow.is_revoked = true ∧ ¬ (100 < revokedRow.expires_at) :=
  ⟨rfl, rfl, by decide⟩

/-- C2 amended: `get_card_by_id` returns a row exactly when it is the
first ledger row matching both the card id and the user id and its
`expires_at` is at least (not necessarily strictly later than) the current
time; the `is_revoked` flag is not consulted, so revoked rows are returned
like active ones. In every other case it returns `NotFound` (`None`). -/
theorem C2_get_card_by_id_characterization (db : Ledger) (card_id user_id : String)
    (now : Nat) (c : CardToken) :
    get_card_by_id db card_id user_id now = some c ↔
      (List.find? (fun r => r.id == card_id && r.user_id == user_id) db = some c ∧
        now ≤ c.expires_at) := by
  unfold get_card_by_id
  cases hf : List.find? (fun r => r.id == card_id && r.user_id == user_id) db with
  | none => simp
  | some card =>
      dsimp only
      by_cases hlt : card.expires_at < now
      · rw [if_pos hlt]
        constructor
        · intro h; exact absurd h (by simp)
        · rintro ⟨hc, hle⟩
          injection hc with hc
          subst hc
          omega
      · rw [if_neg hlt]
        constructor
        · intro h
          injection h with h
          subst h
          exact ⟨rfl, Nat.le_of_not_lt hlt⟩
        · rintro ⟨hc, _⟩
          exact hc

/-! ## C7: sign/verify round trip -/

/-- The claim list built by `create_token` on a map free of the reserved
keys: the injected standard claims are appended in order. -/
theorem create_token_claims_of_absent (m : Claims) (t jti : Nat)
    (hexp : getClaim m "exp" = none) (hiat : getClaim m "iat" = none)
    (hjti : getClaim m "jti" = none) :
    (create_token m t jti).claims =
      m ++ [("exp", JVal.num (t + TOKEN_EXPIRE_SECONDS)),
        ("iat", JVal.num t), ("jti", JVal.uuid jti)] := by
  show setClaim (setClaim (setClaim m "exp" (JVal.num (t + TOKEN_EXPIRE_SECONDS)))
      "iat" (JVal.num t)) "jti" (JVal.uuid jti) = _
  rw [setClaim_of_absent m "exp" _ hexp]
  have hiat2 : getClaim (m ++ [("exp", JVal.num (t + TOKEN_EXPIRE_SECONDS))]) "iat"
      = none := by
    rw [getClaim_append_of_absent _ _ _ hiat, getClaim_cons, if_neg (by simp)]
    rfl
  rw [setClaim_of_absent _ "iat" _ hiat2]
  have hjtiX : getClaim (m ++ [("exp", JVal.num (t + TOKEN_EXPIRE_SECONDS))]) "jti"
      = none := by
    rw [getClaim_append_of_absent _ _ _ hjti, getClaim_cons, if_neg (by simp)]
    rfl
  have hjti2 : getClaim ((m ++ [("exp", JVal.num (t + TOKEN_EXPIRE_SECONDS))]) ++
      [("iat", JVal.num t)]) "jti" = none := by
    rw [getClaim_append_of_absent _ _ _ hjtiX, getClaim_cons, if_neg (by simp)]
    rfl
  rw [setClaim_of_absent _ "jti" _ hjti2]
  simp

/-- C7: for every claim map without the reserved keys (`sub`, `exp`,
`iat`, `jti`) and every verification time strictly before the signing time
plus the configured TTL, decoding the signed token succeeds and returns
exactly the input map extended with the injected standard claims. -/
theorem C7_roundtrip (m : Claims) (t t' jti : Nat)
    (_hsub : getClaim m "sub" = none) (hexp : getClaim m "exp" = none)
    (hiat : getClaim m "iat" = none) (hjti : getClaim m "jti" = none)
    (ht : t' < t + TOKEN_EXPIRE_SECONDS) :
    decode_token (Token.signed (create_token m t jti)) t' =
      Except.ok (m ++ [("exp", JVal.num (t + TOKEN_EXPIRE_SECONDS)),
        ("iat", JVal.num t), ("jti", JVal.uuid jti)]) := by
  have hclaims := create_token_claims_of_absent m t jti hexp hiat hjti
  have hexpclaim : getClaim (create_token m t jti).claims "exp"
      = some (JVal.num (t + TOKEN_EXPIRE_SECONDS)) := by
    rw [hclaims, getClaim_append_of_absent _ _ _ hexp, getClaim_cons, if_pos rfl]
  rw [decode_token_signed]
  rw [if_neg (by simp [create_token])]
  rw [hexpclaim]
  dsimp only
  rw [if_neg (by exact_mod_cast Nat.not_lt.mpr (Nat.le_of_lt ht))]
  rw [hclaims]

/-- C7 witness: the round trip at a concrete reserved-key-free claim map,
signing time 0 and verification time 5. -/
theorem C7_witness :
    getClaim [(("cardholder_name" : String), JVal.str "Ann")] "sub" = none ∧
    getClaim [(("cardholder_name" : String), JVal.str "Ann")] "exp" = none ∧
    getClaim [(("cardholder_name" : String), JVal.str "Ann")] "iat" = none ∧
    getClaim [(("cardholder_name" : String), JVal.str "Ann")] "jti" = none ∧
    (5 : Nat) < 0 + TOKEN_EXPIRE_SECONDS ∧
    decode_token (Token.signed (create_token [("cardholder_name", JVal.str "Ann")] 0 3)) 5 =
      Except.ok [("cardholder_name", JVal.str "Ann"),
        ("exp", JVal.num (0 + TOKEN_EXPIRE_SECONDS)),
        ("iat", JVal.num 0), ("jti", JVal.uuid 3)] :=
  ⟨rfl, rfl, rfl, rfl, by decide,
    C7_roundtrip _ 0 5 3 rfl rfl rfl rfl (by decide)⟩

/-! ## C10: refresh mutates only jwt_token and expires_at -/

/-- C10: whenever `refresh_card_by_id` succeeds, the returned row differs
from the input row only in `jwt_token` and `expires_at` — `id`, `user_id`,
`masked_card_number`, `cardholder_name`, `scope`, `is_revoked` and
`created_at` are unchanged — and the committed ledger replaces only the
row(s) with the refreshed row's id, so every other row is unchanged. -/
theorem C10_refresh_frame (db : Ledger) (card : CardToken) (tok : Token)
    (now jti : Nat) (card' : CardToken) (db' : Ledger)
    (h : refresh_card_by_id db card tok now jti = Except.ok (card', db')) :
    card'.id = card.id ∧ card'.user_id = card.user_id ∧
    card'.masked_card_number = card.masked_card_number ∧
    card'.cardholder_name = card.cardholder_name ∧
    card'.scope = card.scope ∧ card'.is_revoked = card.is_revoked ∧
    card'.created_at = card.created_at ∧
    db' = updateById db card.id card' ∧
    (∀ c ∈ db, c.id ≠ card.id → c ∈ db') := by
  unfold refresh_card_by_id at h
  by_cases h1 : card.jwt_token ≠ tok
  · rw [if_pos h1] at h; simp at h
  · rw [if_neg h1] at h
    by_cases h2 : card.is_revoked = true
    · rw [if_pos h2] at h; simp at h
    · rw [if_neg h2] at h
      by_cases h3 : card.expires_at < now
      · rw [if_pos h3] at h; simp at h
      · rw [if_neg h3] at h
        cases hd : decode_token card.jwt_token now with
        | error e => rw [hd] at h; simp at h
        | ok payload =>
            rw [hd] at h
            simp only [Except.ok.injEq, Prod.mk.injEq] at h
            obtain ⟨h4, h5⟩ := h
            subst h4
            subst h5
            refine ⟨rfl, rfl, rfl, rfl, rfl, rfl, rfl, rfl, ?_⟩
            intro c hc hne
            have hfix : (if c.id == card.id then
                ({ card with
                    jwt_token := Token.signed (create_token payload now jti)
                    expires_at := now + TOKEN_EXPIRE_SECONDS } : CardToken)
               else c) = c := by
              rw [if_neg (by simp [hne])]
            exact hfix ▸ List.mem_map_of_mem _ hc

/-- C10 witness: a concrete successful refresh of `cardA` at time 10,
exhibiting the hypothesis and (part of) the frame conclusion. -/
theorem C10_witness :
    refresh_card_by_id [cardA] cardA tokA 10 3 =
        Except.ok (cardA10, updateById [cardA] cardA.id cardA10) ∧
    cardA10.scope = cardA.scope ∧ cardA10.is_revoked = cardA.is_revoked :=
  ⟨rfl,
    (C10_refresh_frame [cardA] cardA tokA 10 3 cardA10
        (updateById [cardA] cardA.id cardA10) rfl).2.2.2.2.1,
    (C10_refresh_frame [cardA] cardA tokA 10 3 cardA10
        (updateById [cardA] cardA.id cardA10) rfl).2.2.2.2.2.1⟩

/-! ## C3: token-mismatch surfacing across revoke, delete, refresh -/

/-- C3 counterexample: user `u1` presents `cardB`'s (valid, full-access)
token against `cardA`'s id on the refresh route; the service fails with
`TokenMismatch`, but the route surfaces it as a 400 bad-request error, not
as the not-found error the claim states for all three operations alike. -/
theorem C3_counterexample_refresh_mismatch_is_400 :
    refresh_card dbAB "card-a" tokB 10 3 =
      Except.error (ApiError.http 400 "token mismatch") := rfl

/-- C3 amended: whenever a caller presents a token different from the
stored `signed_token` of the addressed row (having passed card
verification and the full-access scope gate), all three mutating
operations fail with `TokenMismatch`; revoke and delete surface it as a
not-found (404) error, but refresh surfaces it as a bad-request (400)
error. -/
theorem C3_token_mismatch_surfacing (db : Ledger) (id : String) (tok : Token)
    (now jti : Nat) (info : Claims × String) (card : CardToken)
    (hv : verify_card tok db now = Except.ok info)
    (hs : getClaim info.1 "scope" = some (JVal.str "full-access"))
    (hg : get_card_by_id db id info.2 now = some card)
    (hm : card.jwt_token ≠ tok) :
    revoke_card db id tok now = Except.error (ApiError.http 404 "token mismatch") ∧
    delete_card db id tok now = Except.error (ApiError.http 404 "token mismatch") ∧
    refresh_card db id tok now jti =
      Except.error (ApiError.http 400 "token mismatch") := by
  have hsc1 : scope_checker ["full-access"] info = Except.ok info := by
    simp [scope_checker, hs]
  have hsc2 : scope_checker ["refresh-only", "full-access"] info = Except.ok info := by
    simp [scope_checker, hs]
  have hca : containsAlready "token mismatch" = false := by decide
  have hrv : revoke_card_by_id db card tok = Except.error "token mismatch" := by
    unfold revoke_card_by_id
    rw [if_pos hm]
  have hdl : delete_card_by_id db card tok = Except.error "token mismatch" := by
    unfold delete_card_by_id
    rw [if_pos hm]
  have hrf : refresh_card_by_id db card tok now jti
      = Except.error "token mismatch" := by
    unfold refresh_card_by_id
    rw [if_pos hm]
  refine ⟨?_, ?_, ?_⟩
  · simp [revoke_card, hv, hsc1, hg, hrv, hca]
  · simp [delete_card, hv, hsc1, hg, hdl]
  · simp [refresh_card, hv, hsc2, hg, hrf]

/-- C3 witness: the amended theorem instantiated at the two-card ledger,
presenting `cardB`'s token against `cardA`. -/
theorem C3_witness :
    verify_card tokB dbAB 10 = Except.ok ((create_token payloadA 0 2).claims, "u1") ∧
    getClaim ((create_token payloadA 0 2).claims, "u1").1 "scope"
      = some (JVal.str "full-access") ∧
    get_card_by_id dbAB "card-a" "u1" 10 = some cardA ∧
    cardA.jwt_token ≠ tokB ∧
    revoke_card dbAB "card-a" tokB 10 =
      Except.error (ApiError.http 404 "token mismatch") ∧
    delete_card dbAB "card-a" tokB 10 =
      Except.error (ApiError.http 404 "token mismatch") ∧
    refresh_card dbAB "card-a" tokB 10 3 =
      Except.error (ApiError.http 400 "token mismatch") := by
  have h := C3_token_mismatch_surfacing dbAB "card-a" tokB 10 3
    ((create_token payloadA 0 2).claims, "u1") cardA rfl rfl rfl (by decide)
  exact ⟨rfl, rfl, rfl, by decide, h.1, h.2.1, h.2.2⟩

/-! ## C9: read-only scope gating on revoke and delete -/

/-- C9: for every card token whose resolved `scope` claim is `read-only`,
every invocation of the revoke or delete route fails with
`InsufficientScope` (403, naming the required scope), and the ledger is
left untouched: the mutation is never executed. -/
theorem C9_read_only_scope_gated (db : Ledger) (id : String) (tok : Token)
    (now : Nat) (info : Claims × String)
    (hv : verify_card tok db now = Except.ok info)
    (hs : getClaim info.1 "scope" = some (JVal.str "read-only")) :
    revoke_card db id tok now = Except.error
      (ApiError.http 403 "insufficient permissions. Required scopes: full-access") ∧
    delete_card db id tok now = Except.error
      (ApiError.http 403 "insufficient permissions. Required scopes: full-access") ∧
    applyOp db (RouteOp.revoke id tok now) = db ∧
    applyOp db (RouteOp.delete id tok now) = db := by
  have hsc : scope_checker ["full-access"] info = Except.error
      (ApiError.http 403 "insufficient permissions. Required scopes: full-access") := by
    simp [scope_checker, hs]
    rfl
  have h1 : revoke_card db id tok now = Except.error
      (ApiError.http 403 "insufficient permissions. Required scopes: full-access") := by
    simp [revoke_card, hv, hsc]
  have h2 : delete_card db id tok now = Except.error
      (ApiError.http 403 "insufficient permissions. Required scopes: full-access") := by
    simp [delete_card, hv, hsc]
  refine ⟨h1, h2, ?_, ?_⟩
  · simp [applyOp, h1]
  · simp [applyOp, h2]

/-- C9 witness: the theorem instantiated at the one-row ledger holding the
read-only card `cardR`, presenting its own token. -/
theorem C9_witness :
    verify_card tokR dbR 10 = Except.ok ((create_token payloadR 0 4).claims, "u1") ∧
    getClaim ((create_token payloadR 0 4).claims, "u1").1 "scope"
      = some (JVal.str "read-only") ∧
    revoke_card dbR "card-r" tokR 10 = Except.error
      (ApiError.http 403 "insufficient permissions. Required scopes: full-access") ∧
    delete_card dbR "card-r" tokR 10 = Except.error
      (ApiError.http 403 "insufficient permissions. Required scopes: full-access") ∧
    applyOp dbR (RouteOp.revoke "card-r" tokR 10) = dbR ∧
    applyOp dbR (RouteOp.delete "card-r" tokR 10) = dbR := by
  have h := C9_read_only_scope_gated dbR "card-r" tokR 10
    ((create_token payloadR 0 4).claims, "u1") rfl rfl
  exact ⟨rfl, rfl, h.1, h.2.1, h.2.2.1, h.2.2.2⟩

/-! ## C8: refresh preserves claims, advances exp, changes the token -/

/-- C8: for a non-revoked, non-expired row whose stored token was minted
by `create_token` over a reserved-key-free payload at time `t1`, a
successful refresh at a strictly later time `t2` (with a fresh uuid draw)
re-signs the decoded payload: the new stored token carries the same
`cardholder_name` and `scope` claims as the old one, an `exp` claim
strictly later than the old one, and the new token string differs from the
old one. -/
theorem C8_refresh_claim_relation (db : Ledger) (card : CardToken)
    (payload : Claims) (t1 t2 jti1 jti2 : Nat)
    (htok : card.jwt_token = Token.signed (create_token payload t1 jti1))
    (hexp : getClaim payload "exp" = none)
    (hiat : getClaim payload "iat" = none)
    (hjti : getClaim payload "jti" = none)
    (hrev : card.is_revoked = false)
    (hled : card.expires_at = t1 + TOKEN_EXPIRE_SECONDS)
    (hlt : t1 < t2)
    (hnl : ¬ card.expires_at < t2)
    (hj : jti1 ≠ jti2) :
    refresh_card_by_id db card card.jwt_token t2 jti2 =
      Except.ok
        ({ card with
            jwt_token := Token.signed
              (create_token (create_token payload t1 jti1).claims t2 jti2)
            expires_at := t2 + TOKEN_EXPIRE_SECONDS },
          updateById db card.id
            { card with
                jwt_token := Token.signed
                  (create_token (create_token payload t1 jti1).claims t2 jti2)
                expires_at := t2 + TOKEN_EXPIRE_SECONDS }) ∧
    getClaim (create_token (create_token payload t1 jti1).claims t2 jti2).claims
        "cardholder_name"
      = getClaim (create_token payload t1 jti1).claims "cardholder_name" ∧
    getClaim (create_token (create_token payload t1 jti1).claims t2 jti2).claims
        "scope"
      = getClaim (create_token payload t1 jti1).claims "scope" ∧
    getClaim (create_token payload t1 jti1).claims "exp"
      = some (JVal.num (t1 + TOKEN_EXPIRE_SECONDS)) ∧
    getClaim (create_token (create_token payload t1 jti1).claims t2 jti2).claims
        "exp" = some (JVal.num (t2 + TOKEN_EXPIRE_SECONDS)) ∧
    t1 + TOKEN_EXPIRE_SECONDS < t2 + TOKEN_EXPIRE_SECONDS ∧
    Token.signed (create_token (create_token payload t1 jti1).claims t2 jti2)
      ≠ card.jwt_token := by
  have holdexp : getClaim (create_token payload t1 jti1).claims "exp"
      = some (JVal.num (t1 + TOKEN_EXPIRE_SECONDS)) := by
    rw [create_token_claims_of_absent payload t1 jti1 hexp hiat hjti,
      getClaim_append_of_absent _ _ _ hexp, getClaim_cons, if_pos rfl]
  have holdjti : getClaim (create_token payload t1 jti1).claims "jti"
      = some (JVal.uuid jti1) := by
    show getClaim (setClaim (setClaim (setClaim payload "exp"
      (JVal.num (t1 + TOKEN_EXPIRE_SECONDS))) "iat" (JVal.num t1)) "jti"
      (JVal.uuid jti1)) "jti" = _
    rw [getClaim_setClaim_self]
  have hrefresh : refresh_card_by_id db card card.jwt_token t2 jti2 =
      Except.ok
        ({ card with
            jwt_token := Token.signed
              (create_token (create_token payload t1 jti1).claims t2 jti2)
            expires_at := t2 + TOKEN_EXPIRE_SECONDS },
          updateById db card.id
            { card with
                jwt_token := Token.signed
                  (create_token (create_token payload t1 jti1).claims t2 jti2)
                expires_at := t2 + TOKEN_EXPIRE_SECONDS }) := by
    unfold refresh_card_by_id
    rw [if_neg (by simp)]
    rw [if_neg (by simp [hrev])]
    rw [if_neg hnl]
    rw [htok, decode_token_signed]
    rw [if_neg (by simp [create_token])]
    rw [holdexp]
    dsimp only
    rw [if_neg (by
      rw [hled] at hnl
      exact_mod_cast Nat.not_lt.mpr (Nat.le_of_not_lt hnl))]
  refine ⟨hrefresh, ?_, ?_, holdexp, ?_, by omega, ?_⟩
  · show getClaim (setClaim (setClaim (setClaim
        (create_token payload t1 jti1).claims "exp"
        (JVal.num (t2 + TOKEN_EXPIRE_SECONDS))) "iat" (JVal.num t2)) "jti"
        (JVal.uuid jti2)) "cardholder_name" = _
    rw [getClaim_setClaim_ne _ _ _ _ (by simp), getClaim_setClaim_ne _ _ _ _ (by simp),
      getClaim_setClaim_ne _ _ _ _ (by simp)]
  · show getClaim (setClaim (setClaim (setClaim
        (create_token payload t1 jti1).claims "exp"
        (JVal.num (t2 + TOKEN_EXPIRE_SECONDS))) "iat" (JVal.num t2)) "jti"
        (JVal.uuid jti2)) "scope" = _
    rw [getClaim_setClaim_ne _ _ _ _ (by simp), getClaim_setClaim_ne _ _ _ _ (by simp),
      getClaim_setClaim_ne _ _ _ _ (by simp)]
  · show getClaim (setClaim (setClaim (setClaim
        (create_token payload t1 jti1).claims "exp"
        (JVal.num (t2 + TOKEN_EXPIRE_SECONDS))) "iat" (JVal.num t2)) "jti"
        (JVal.uuid jti2)) "exp" = _
    rw [getClaim_setClaim_ne _ _ _ _ (by simp), getClaim_setClaim_ne _ _ _ _ (by simp),
      getClaim_setClaim_self]
  · intro heq
    rw [htok] at heq
    injection heq with heq
    have hclaimseq : (create_token (create_token payload t1 jti1).claims t2 jti2).claims
        = (create_token payload t1 jti1).claims := congrArg Jwt.claims heq
    have hnewjti : getClaim (create_token
        (create_token payload t1 jti1).claims t2 jti2).claims "jti"
        = some (JVal.uuid jti2) := by
      show getClaim (setClaim (setClaim (setClaim
          (create_token payload t1 jti1).claims "exp"
          (JVal.num (t2 + TOKEN_EXPIRE_SECONDS))) "iat" (JVal.num t2)) "jti"
          (JVal.uuid jti2)) "jti" = _
      rw [getClaim_setClaim_self]
    rw [hclaimseq, holdjti] at hnewjti
    injection hnewjti with hnewjti
    injection hnewjti with hnewjti
    exact hj hnewjti

/-- C8 witness: the theorem instantiated at `cardA` (minted at time 0 with
uuid draw 1), refreshed at time 10 with uuid draw 3. -/
theorem C8_witness :
    cardA.jwt_token = Token.signed (create_token payloadA 0 1) ∧
    getClaim payloadA "exp" = none ∧
    getClaim payloadA "iat" = none ∧
    getClaim payloadA "jti" = none ∧
    cardA.is_revoked = false ∧
    cardA.expires_at = 0 + TOKEN_EXPIRE_SECONDS ∧
    (0 : Nat) < 10 ∧ ¬ cardA.expires_at < 10 ∧ (1 : Nat) ≠ 3 ∧
    refresh_card_by_id [cardA] cardA cardA.jwt_token 10 3 =
      Except.ok (cardA10, updateById [cardA] cardA.id cardA10) ∧
    Token.signed (create_token (create_token payloadA 0 1).claims 10 3)
      ≠ cardA.jwt_token := by
  have h := C8_refresh_claim_relation [cardA] cardA payloadA 0 10 1 3
    rfl rfl rfl rfl rfl rfl (by decide) (by decide) (by decide)
  exact ⟨rfl, rfl, rfl, rfl, rfl, rfl, by decide, by decide, by decide,
    h.1, h.2.2.2.2.2.2⟩

/-! ## C6: revocation monotonicity -/

/-- A row returned by `get_card_by_id` is a ledger row with the requested
id. -/
theorem get_card_by_id_mem {db : Ledger} {id uid : String} {now : Nat}
    {c : CardToken} (h : get_card_by_id db id uid now = some c) :
    c ∈ db ∧ c.id = id := by
  unfold get_card_by_id at h
  cases hf : List.find? (fun r => r.id == id && r.user_id == uid) db with
  | none => rw [hf] at h; simp at h
  | some card =>
      rw [hf] at h
      dsimp only at h
      by_cases hlt : card.expires_at < now
      · rw [if_pos hlt] at h; simp at h
      · rw [if_neg hlt] at h
        injection h with h
        subst h
        refine ⟨List.mem_of_find?_eq_some hf, ?_⟩
        have hp := List.find?_some hf
        simp only [Bool.and_eq_true, beq_iff_eq] at hp
        exact hp.1

/-- Shape of a successful revoke route call: some non-revoked ledger row
with the requested id is committed with `is_revoked := true`. -/
theorem revoke_card_ok {db : Ledger} {id : String} {tok : Token} {now : Nat}
    {c' : CardToken} {db' : Ledger}
    (h : revoke_card db id tok now = Except.ok (c', db')) :
    ∃ card, card ∈ db ∧ card.id = id ∧ card.is_revoked = false ∧
      c' = { card with is_revoked := true } ∧ db' = updateById db card.id c' := by
  unfold revoke_card at h
  cases hv : verify_card tok db now with
  | error e => rw [hv] at h; simp at h
  | ok info =>
      rw [hv] at h
      dsimp only at h
      cases hs : scope_checker ["full-access"] info with
      | error e => rw [hs] at h; simp at h
      | ok info2 =>
          rw [hs] at h
          dsimp only at h
          cases hg : get_card_by_id db id info2.2 now with
          | none => rw [hg] at h; simp at h
          | some card =>
              rw [hg] at h
              dsimp only at h
              cases hr : revoke_card_by_id db card tok with
              | error e =>
                  rw [hr] at h
                  dsimp only at h
                  split at h <;> simp at h
              | ok r =>
                  rw [hr] at h
                  dsimp only at h
                  injection h with h
                  subst h
                  unfold revoke_card_by_id at hr
                  by_cases h1 : card.jwt_token ≠ tok
                  · rw [if_pos h1] at hr; simp at hr
                  · rw [if_neg h1] at hr
                    by_cases h2 : card.is_revoked = true
                    · rw [if_pos h2] at hr; simp at hr
                    · rw [if_neg h2] at hr
                      dsimp only at hr
                      injection hr with hr
                      simp only [Prod.mk.injEq] at hr
                      obtain ⟨hc, hdb⟩ := hr
                      subst hc
                      subst hdb
                      obtain hmem := get_card_by_id_mem hg
                      exact ⟨card, hmem.1, hmem.2,
                        Bool.eq_false_iff.mpr h2, rfl, rfl⟩

/-- Shape of a successful refresh route call: some non-revoked ledger row
is committed with the same id and still non-revoked. -/
theorem refresh_card_ok {db : Ledger} {id : String} {tok : Token} {now jti : Nat}
    {c' : CardToken} {db' : Ledger}
    (h : refresh_card db id tok now jti = Except.ok (c', db')) :
    ∃ card, card ∈ db ∧ card.is_revoked = false ∧ c'.id = card.id ∧
      c'.is_revoked = false ∧ db' = updateById db card.id c' := by
  unfold refresh_card at h
  cases hv : verify_card tok db now with
  | error e => rw [hv] at h; simp at h
  | ok info =>
      rw [hv] at h
      dsimp only at h
      cases hs : scope_checker ["refresh-only", "full-access"] info with
      | error e => rw [hs] at h; simp at h
      | ok info2 =>
          rw [hs] at h
          dsimp only at h
          cases hg : get_card_by_id db id info2.2 now with
          | none => rw [hg] at h; simp at h
          | some card =>
              rw [hg] at h
              dsimp only at h
              cases hr : refresh_card_by_id db card tok now jti with
              | error e => rw [hr] at h; simp at h
              | ok r =>
                  rw [hr] at h
                  dsimp only at h
                  injection h with h
                  subst h
                  unfold refresh_card_by_id at hr
                  by_cases h1 : card.jwt_token ≠ tok
                  · rw [if_pos h1] at hr; simp at hr
                  · rw [if_neg h1] at hr
                    by_cases h2 : card.is_revoked = true
                    · rw [if_pos h2] at hr; simp at hr
                    · rw [if_neg h2] at hr
                      by_cases h3 : card.expires_at < now
                      · rw [if_pos h3] at hr; simp at hr
                      · rw [if_neg h3] at hr
                        cases hd : decode_token card.jwt_token now with
                        | error e => rw [hd] at hr; simp at hr
                        | ok payload =>
                            rw [hd] at hr
                            dsimp only at hr
                            injection hr with hr
                            simp only [Prod.mk.injEq] at hr
                            obtain ⟨hc, hdb⟩ := hr
                            subst hc
                            subst hdb
                            exact ⟨card, (get_card_by_id_mem hg).1,
                              Bool.eq_false_iff.mpr h2, rfl,
                              Bool.eq_false_iff.mpr h2, rfl⟩

/-- A successful delete route call only removes rows: the committed ledger
is a sublist of the original one. -/
theorem delete_card_sub {db : Ledger} {id : String} {tok : Token} {now : Nat}
    {msg : String} {db' : Ledger}
    (h : delete_card db id tok now = Except.ok (msg, db')) :
    ∀ c ∈ db', c ∈ db := by
  unfold delete_card at h
  cases hv : verify_card tok db now with
  | error e => rw [hv] at h; simp at h
  | ok info =>
      rw [hv] at h
      dsimp only at h
      cases hs : scope_checker ["full-access"] info with
      | error e => rw [hs] at h; simp at h
      | ok info2 =>
          rw [hs] at h
          dsimp only at h
          cases hg : get_card_by_id db id info2.2 now with
          | none => rw [hg] at h; simp at h
          | some card =>
              rw [hg] at h
              dsimp only at h
              cases hr : delete_card_by_id db card tok with
              | error e => rw [hr] at h; simp at h
              | ok dbr =>
                  rw [hr] at h
                  dsimp only at h
                  injection h with h
                  simp only [Prod.mk.injEq] at h
                  obtain ⟨_, hdb⟩ := h
                  subst hdb
                  unfold delete_card_by_id at hr
                  by_cases h1 : card.jwt_token ≠ tok
                  · rw [if_pos h1] at hr; simp at hr
                  · rw [if_neg h1] at hr
                    injection hr with hr
                    subst hr
                    intro c hc
                    exact List.mem_of_mem_filter hc

/-- One route invocation preserves the revokedness of every row with a
given id, provided issue invocations never reuse that id. -/
theorem applyOp_mono (db : Ledger) (op : RouteOp) (cid : String)
    (hfresh : savedIdNe op cid)
    (hP : ∀ c ∈ db, c.id = cid → c.is_revoked = true) :
    ∀ c ∈ applyOp db op, c.id = cid → c.is_revoked = true := by
  cases op with
  | issue cd uid now nid jti =>
      intro c hc hcid
      unfold applyOp save_card_to_db at hc
      dsimp only at hc
      rw [List.mem_append] at hc
      cases hc with
      | inl h => exact hP c h hcid
      | inr h =>
          simp only [List.mem_singleton] at h
          subst h
          exact absurd hcid hfresh
  | revoke id tok now =>
      intro c hc hcid
      unfold applyOp at hc
      dsimp only at hc
      cases hr : revoke_card db id tok now with
      | error e => rw [hr] at hc; exact hP c hc hcid
      | ok r =>
          obtain ⟨c', db'⟩ := r
          rw [hr] at hc
          obtain ⟨card, hmem, hid, hrev0, hc', hdb'⟩ := revoke_card_ok hr
          subst hdb'
          dsimp only at hc
          obtain ⟨x, hx, hfx⟩ := List.mem_map.mp hc
          by_cases hxid : (x.id == card.id) = true
          · rw [if_pos hxid] at hfx
            subst hfx
            rw [hc']
          · rw [if_neg hxid] at hfx
            subst hfx
            exact hP x hx hcid
  | delete id tok now =>
      intro c hc hcid
      unfold applyOp at hc
      dsimp only at hc
      cases hr : delete_card db id tok now with
      | error e => rw [hr] at hc; exact hP c hc hcid
      | ok r =>
          obtain ⟨msg, db'⟩ := r
          rw [hr] at hc
          dsimp only at hc
          exact hP c (delete_card_sub hr c hc) hcid
  | refresh id tok now jti =>
      intro c hc hcid
      unfold applyOp at hc
      dsimp only at hc
      cases hr : refresh_card db id tok now jti with
      | error e => rw [hr] at hc; exact hP c hc hcid
      | ok r =>
          obtain ⟨c', db'⟩ := r
          rw [hr] at hc
          obtain ⟨card, hmem, hrev0, hcid', hcrev, hdb'⟩ := refresh_card_ok hr
          subst hdb'
          dsimp only at hc
          obtain ⟨x, hx, hfx⟩ := List.mem_map.mp hc
          by_cases hxid : (x.id == card.id) = true
          · rw [if_pos hxid] at hfx
            subst hfx
            have hcardcid : card.id = cid := by rw [← hcid', hcid]
            have := hP card hmem hcardcid
            rw [hrev0] at this
            exact absurd this (by simp)
          · rw [if_neg hxid] at hfx
            subst hfx
            exact hP x hx hcid

/-- C6: a first revoke on a non-revoked row with the matching stored token
succeeds and commits `is_revoked := true`; a second revoke on the resulting
row fails with `AlreadyRevoked` and the flag stays true; and across any
sequence of issue/revoke/delete/refresh route invocations (with fresh ids
on issue), a row id that is revoked never becomes non-revoked again. -/
theorem C6_revocation_monotonic (db : Ledger) (card : CardToken)
    (h0 : card.is_revoked = false) :
    revoke_card_by_id db card card.jwt_token =
      Except.ok ({ card with is_revoked := true },
        updateById db card.id { card with is_revoked := true }) ∧
    (∀ db2 : Ledger, revoke_card_by_id db2 { card with is_revoked := true }
        card.jwt_token = Except.error "card is already revoked") ∧
    (∀ (ops : List RouteOp) (db0 : Ledger),
      (∀ op ∈ ops, savedIdNe op card.id) →
      (∀ c ∈ db0, c.id = card.id → c.is_revoked = true) →
      ∀ c ∈ List.foldl applyOp db0 ops, c.id = card.id → c.is_revoked = true) := by
  refine ⟨?_, ?_, ?_⟩
  · unfold revoke_card_by_id
    rw [if_neg (by simp), if_neg (by simp [h0])]
  · intro db2
    unfold revoke_card_by_id
    rw [if_neg (by simp), if_pos rfl]
  · intro ops
    induction ops with
    | nil =>
        intro db0 _ hP c hc hcid
        exact hP c hc hcid
    | cons op rest ih =>
        intro db0 hops hP
        rw [List.foldl_cons]
        exact ih (applyOp db0 op)
          (fun o ho => hops o (List.mem_cons_of_mem _ ho))
          (applyOp_mono db0 op card.id (hops op (List.mem_cons_self _ _)) hP)

/-- C6 witness: the theorem instantiated at `cardA` in the two-card
ledger: the first revoke commits the flag, the second revoke on the
committed ledger fails with `AlreadyRevoked`. -/
theorem C6_witness :
    cardA.is_revoked = false ∧
    revoke_card_by_id dbAB cardA cardA.jwt_token =
      Except.ok ({ cardA with is_revoked := true },
        updateById dbAB cardA.id { cardA with is_revoked := true }) ∧
    revoke_card_by_id (updateById dbAB cardA.id { cardA with is_revoked := true })
        { cardA with is_revoked := true } cardA.jwt_token
      = Except.error "card is already revoked" := by
  have h := C6_revocation_monotonic dbAB cardA rfl
  exact ⟨rfl, h.1, h.2.1 _⟩
